import Mathlib

/-!
Shallow embedding of the mcp-supabase-server variants: startup validation,
tool dispatch, the buscar_arsenal / buscar_lead / atualizar_lead handlers,
the generic table CRUD handlers and the SSE POST routes. Each definition is
translated from the corresponding JavaScript/TypeScript source; network and
database effects are made explicit as oracle parameters plus a trace of the
calls the handler issues.
-/

namespace MCPSupabase

/-- JavaScript falsiness of an optional string value: `!x` is true exactly
when the value is absent (undefined) or the empty string. -/
def jsFalsy : Option String → Bool
  | none => true
  | some s => decide (s = "")

/-- JavaScript truthiness of an optional string value, as used by
`if (x) ...` guards in the source. -/
def jsTruthy (v : Option String) : Bool := !(jsFalsy v)

/-- JavaScript `x || d` for an optional string (empty string falls back). -/
def jsOrStr (v : Option String) (d : String) : String :=
  match v with
  | none => d
  | some s => if s = "" then d else s

/-- JavaScript `x || d` for an optional number (0 is falsy and falls back). -/
def jsOrNat (v : Option Nat) (d : Nat) : Nat :=
  match v with
  | none => d
  | some n => if n = 0 then d else n

/-! ### Startup validation (claim C2)

Three validation blocks appear in the sources: src/server.js lines 16-19
(variant 1, exits), src/server.js lines 102-104 (variant 2, logs only), and
src/unnamed/part_003 lines 15-18 (exits). -/

/-- Outcome of the startup configuration check: either the process is
terminated via process.exit, or execution proceeds (possibly after logging
diagnostics). -/
inductive StartupOutcome where
  | exitProcess (code : Nat) (msg : String)
  | proceed (warnings : List String)
deriving DecidableEq

def StartupOutcome.isExit : StartupOutcome → Bool
  | .exitProcess _ _ => true
  | .proceed _ => false

/-- src/server.js lines 13-19 (variant 1): missing or empty SUPABASE_URL or
SUPABASE_KEY logs a diagnostic and calls process.exit(1). -/
def startupV1 (url key : Option String) : StartupOutcome :=
  if jsFalsy url || jsFalsy key then
    .exitProcess 1 "❌ Erro: Faltam credenciais no .env"
  else .proceed []

/-- src/server.js lines 99-104 (variant 2): missing or empty SUPABASE_URL or
SUPABASE_SERVICE_KEY only logs a diagnostic; there is no process.exit and
execution continues. -/
def startupV2 (url key : Option String) : StartupOutcome :=
  if jsFalsy url || jsFalsy key then
    .proceed ["ERRO: Variáveis de ambiente SUPABASE_URL ou SUPABASE_SERVICE_KEY não definidas."]
  else .proceed []

/-- src/unnamed/part_003 lines 12-18: missing or empty SUPABASE_URL or
SUPABASE_SERVICE_KEY logs a diagnostic and calls process.exit(1). -/
def startupP3 (url key : Option String) : StartupOutcome :=
  if jsFalsy url || jsFalsy key then
    .exitProcess 1 "❌ ERRO FATAL: Variáveis SUPABASE ausentes."
  else .proceed []

/-! ### Tool result envelope and the minimal call handlers (claim C1) -/

/-- One text content block of the tool-invocation protocol envelope. -/
structure ToolContent where
  text : String
deriving DecidableEq

/-- The protocol response envelope `{content, isError}`. -/
structure ToolResult where
  content : List ToolContent
  isError : Bool
deriving DecidableEq

/-- src/server.js lines 54-61 (variant 1 CallToolRequestSchema handler):
known tool returns a test envelope; an unknown name throws
`new Error("Ferramenta não encontrada")`, modelled as `Except.error`.
There is no try/catch in this handler. -/
def callToolV1 (name : String) : Except String ToolResult :=
  if name = "buscar_arsenal" then
    .ok ⟨[⟨"Teste de conexão bem sucedido!"⟩], false⟩
  else .error "Ferramenta não encontrada"

/-- src/unnamed/part_005 lines 55-62: identical structure to variant 1;
an unknown tool name throws, uncaught inside the handler. -/
def callToolP5 (name : String) : Except String ToolResult :=
  if name = "buscar_arsenal" then
    .ok ⟨[⟨"Teste de conexão bem sucedido!"⟩], false⟩
  else .error "Ferramenta não encontrada"

/-! ### Network/database call traces -/

/-- A single outbound network call a handler may issue: the Vertex embedding
request, the vector-similarity RPC, the various Supabase table reads/writes,
and signed-URL generation. -/
inductive NetCall where
  | vertexPredict (texto : String)
  | rpcMatch (queryEmbedding : List Int) (matchThreshold : Rat) (matchCount : Nat)
  | selectRows (tabela colunas : String) (limite : Nat)
  | orSelect (tabela : String) (orFilter : String) (limite : Nat)
  | arsenalSelect (orFilter : Option String) (categoria : Option String) (limite : Nat)
  | insertRows (tabela : String) (dados : Option String)
  | updateRows (tabela : String) (dados : Option String) (id_alvo : Option String)
  | deleteRows (tabela : String) (id_alvo : Option String)
  | createSignedUrl (bucket caminho : String) (expiresIn : Nat)
deriving DecidableEq

/-- Model of `JSON.stringify` applied to a list of already-serialized rows. -/
def jsonStringify (rows : List String) : String :=
  "[" ++ String.intercalate "," rows ++ "]"

/-! ### part_002 stdio variant: ler_tabela / modificar_dados /
gerar_link_download (claims C1, C8, C9) -/

/-- Arguments object of the part_002 / part_006 call handlers. Optional
fields model JSON keys that may be absent. -/
structure P2Args where
  tabela : String
  colunas : Option String
  limite : Option Nat
  acao : Option String
  dados : Option String
  id_alvo : Option String
  bucket : String
  caminho : String
deriving DecidableEq

/-- Oracle giving the backend result of each kind of call the part_002 /
part_006 handlers may issue (`.error m` models a result whose error field is
set with message m). -/
structure P2Oracle where
  selectRes : Except String (List String)
  insertRes : Except String (List String)
  updateRes : Except String (List String)
  deleteRes : Except String (List String)
  signRes : Except String String

/-- Body of the part_002 CallToolRequestSchema handler (src/unnamed/part_002
lines 83-128), i.e. the code inside the try block: `Except.error` models a
thrown exception; the second component is the trace of backend calls issued.
For `modificar_dados` with an acao outside insert/update/delete no branch
assigns `result`, so `result.error` on line 114 throws a TypeError, modelled
by the final error case of that branch. -/
def callToolP2Core (name : String) (args : P2Args) (db : P2Oracle) :
    Except String String × List NetCall :=
  if name = "ler_tabela" then
    let call := NetCall.selectRows args.tabela (jsOrStr args.colunas "*") (jsOrNat args.limite 10)
    match db.selectRes with
    | .error m => (.error m, [call])
    | .ok rows => (.ok (jsonStringify rows), [call])
  else if name = "modificar_dados" then
    if args.acao = some "insert" then
      let call := NetCall.insertRows args.tabela args.dados
      match db.insertRes with
      | .error m => (.error m, [call])
      | .ok rows => (.ok (jsonStringify rows), [call])
    else if args.acao = some "update" then
      if jsFalsy args.id_alvo then (.error "Precisa de id_alvo para atualizar", [])
      else
        let call := NetCall.updateRows args.tabela args.dados args.id_alvo
        match db.updateRes with
        | .error m => (.error m, [call])
        | .ok rows => (.ok (jsonStringify rows), [call])
    else if args.acao = some "delete" then
      if jsFalsy args.id_alvo then (.error "Precisa de id_alvo para apagar", [])
      else
        let call := NetCall.deleteRows args.tabela args.id_alvo
        match db.deleteRes with
        | .error m => (.error m, [call])
        | .ok rows => (.ok (jsonStringify rows), [call])
    else
      (.error "Cannot read properties of undefined (reading error)", [])
  else if name = "gerar_link_download" then
    let call := NetCall.createSignedUrl args.bucket args.caminho 3600
    match db.signRes with
    | .error m => (.error m, [call])
    | .ok url => (.ok ("Link de download: " ++ url), [call])
  else
    (.error ("Ferramenta não encontrada: " ++ name), [])

/-- Full part_002 call handler: the catch block (lines 130-135) converts any
thrown error into an envelope with isError true and message `Erro: ...`. -/
def callToolP2 (name : String) (args : P2Args) (db : P2Oracle) :
    ToolResult × List NetCall :=
  match callToolP2Core name args db with
  | (.ok text, calls) => (⟨[⟨text⟩], false⟩, calls)
  | (.error m, calls) => (⟨[⟨"Erro: " ++ m⟩], true⟩, calls)

/-- Body of the part_006 second-variant CallToolRequestSchema handler
(src/unnamed/part_006 lines 183-213): like part_002 but `modificar_dados`
performs the update/delete query with no id_alvo check, passing the possibly
undefined id_alvo straight into the eq filter. -/
def callToolP6Core (name : String) (args : P2Args) (db : P2Oracle) :
    Except String String × List NetCall :=
  if name = "ler_tabela" then
    let call := NetCall.selectRows args.tabela (jsOrStr args.colunas "*") (jsOrNat args.limite 10)
    match db.selectRes with
    | .error m => (.error m, [call])
    | .ok rows => (.ok (jsonStringify rows), [call])
  else if name = "modificar_dados" then
    if args.acao = some "insert" then
      let call := NetCall.insertRows args.tabela args.dados
      match db.insertRes with
      | .error m => (.error m, [call])
      | .ok rows => (.ok (jsonStringify rows), [call])
    else if args.acao = some "update" then
      let call := NetCall.updateRows args.tabela args.dados args.id_alvo
      match db.updateRes with
      | .error m => (.error m, [call])
      | .ok rows => (.ok (jsonStringify rows), [call])
    else if args.acao = some "delete" then
      let call := NetCall.deleteRows args.tabela args.id_alvo
      match db.deleteRes with
      | .error m => (.error m, [call])
      | .ok rows => (.ok (jsonStringify rows), [call])
    else
      (.error "Cannot read properties of undefined (reading error)", [])
  else if name = "gerar_link_download" then
    let call := NetCall.createSignedUrl args.bucket args.caminho 3600
    match db.signRes with
    | .error m => (.error m, [call])
    | .ok url => (.ok ("Link: " ++ url), [call])
  else
    (.error "Ferramenta desconhecida", [])

/-- Full part_006 second-variant call handler with its catch block
(src/unnamed/part_006 lines 214-216). -/
def callToolP6 (name : String) (args : P2Args) (db : P2Oracle) :
    ToolResult × List NetCall :=
  match callToolP6Core name args db with
  | (.ok text, calls) => (⟨[⟨text⟩], false⟩, calls)
  | (.error m, calls) => (⟨[⟨"Erro: " ++ m⟩], true⟩, calls)

/-! ### Arsenal rows and the buscar_arsenal handlers
(claims C3, C4; part_001, part_004, part_007) -/

/-- One row of the arsenal table, with the columns the handlers read.
Optional fields model nullable columns; similarity is the score returned by
the vector-similarity RPC. -/
structure ArsenalRow where
  nome_arquivo : Option String
  link_publico : Option String
  categoria : Option String
  modelo_associado : Option String
  conteudo_texto : Option String
  detalhes_visuais : Option String
  descricao_semantica : Option String
  emocao_predominante : Option String
  melhor_momento_uso : Option String
  similarity : Rat
deriving DecidableEq

/-- HTTP response of the buscar_arsenal endpoints: 400 invalid argument,
500 caught error, the sem_resultados sentinel, or a success payload. -/
inductive ArsenalResp where
  | badRequest (mensagem : String)
  | serverError (mensagem : String)
  | semResultados (queryOriginal : String)
  | sucesso (query : String) (total : Nat) (resultados : List ArsenalRow)
deriving DecidableEq

/-- src/unnamed/part_001 gerarEmbedding: throws before any network call if
VERTEX_PROJECT is unset; otherwise performs the Vertex predict request and
throws `Vertex AI falhou: <status>` on a non-ok response. The predictRes
oracle stands for the outcome of the fetch. -/
def gerarEmbedding (vertexProject : Option String) (texto : String)
    (predictRes : Except String (List Int)) : Except String (List Int) × List NetCall :=
  if jsFalsy vertexProject then (.error "VERTEX_PROJECT não configurado", [])
  else
    match predictRes with
    | .error status => (.error ("Vertex AI falhou: " ++ status), [.vertexPredict texto])
    | .ok e => (.ok e, [.vertexPredict texto])

/-- The similarity threshold the part_001 handler passes to the
match_arsenal_vendas RPC (0.3). -/
def matchThreshold : Rat := 3 / 10

/-- src/unnamed/part_001 POST /buscar_arsenal (lines 189-264): reject a
falsy query with 400 before any network call; otherwise generate the
embedding, call the match_arsenal_vendas RPC with threshold 0.3 and
match_count limit (default 5); an empty result yields the non-error
sem_resultados response; any thrown error yields a 500. -/
def buscarArsenalP1 (vertexProject : Option String) (query : Option String)
    (limit : Option Nat) (predictRes : Except String (List Int))
    (rpcRes : Except String (List ArsenalRow)) : ArsenalResp × List NetCall :=
  if jsFalsy query then
    (.badRequest "Query inválida. Envie: \x7b \"query\": \"termo de busca\" \x7d", [])
  else
    let q := query.getD ""
    match gerarEmbedding vertexProject q predictRes with
    | (.error m, calls) => (.serverError m, calls)
    | (.ok emb, calls) =>
      let rpcCall := NetCall.rpcMatch emb matchThreshold (limit.getD 5)
      match rpcRes with
      | .error m => (.serverError m, calls ++ [rpcCall])
      | .ok data =>
        if data.isEmpty then (.semResultados q, calls ++ [rpcCall])
        else (.sucesso q data.length data, calls ++ [rpcCall])

/-- The ilike or-filter over the arsenal_vendas text columns used by
part_004 (and the SSE variants). -/
def p4Filtro (q : String) : String :=
  "descricao_semantica.ilike.%" ++ q ++ "%,conteudo_texto.ilike.%" ++ q ++
    "%,modelo_associado.ilike.%" ++ q ++ "%"

/-- src/unnamed/part_004 POST /buscar_arsenal (lines 30-69): reject a falsy
query with 400 before any call; otherwise case-insensitive substring select
over three text columns, capped at limit (default 5). -/
def buscarArsenalP4 (query : Option String) (limit : Option Nat)
    (selRes : Except String (List ArsenalRow)) : ArsenalResp × List NetCall :=
  if jsFalsy query then (.badRequest "Query obrigatória", [])
  else
    let q := query.getD ""
    let call := NetCall.orSelect "arsenal_vendas" (p4Filtro q) (limit.getD 5)
    match selRes with
    | .error m => (.serverError m, [call])
    | .ok data => (.sucesso q data.length data, [call])

/-! ### part_007 call handler (claim C3 counterexample) -/

/-- Arguments of the part_007 tools. -/
structure P7Args where
  busca : Option String
  categoria : Option String
  tabela : String
  limite : Option Nat
deriving DecidableEq

/-- Oracle for the part_007 backend calls. -/
structure P7Oracle where
  arsenalRes : Except String (List ArsenalRow)
  selectRes : Except String (List String)

/-- The ilike or-filter over four arsenal text columns used by part_007. -/
def p7Filtro (termo : String) : String :=
  "descricao_semantica.ilike.%" ++ termo ++ "%,modelo_associado.ilike.%" ++ termo ++
    "%,emocao_predominante.ilike.%" ++ termo ++ "%,detalhes_visuais.ilike.%" ++ termo ++ "%"

/-- Rendering of a possibly null column inside a JS template string. -/
def jsShow (v : Option String) : String := v.getD "undefined"

/-- part_007 formatting of one arsenal row (lines 103-109). -/
def formatP7Item (i : ArsenalRow) : String :=
  "📸 Imagem (" ++ jsShow i.modelo_associado ++ "):\nContexto: " ++
    jsShow i.descricao_semantica ++ "\nEmoção: " ++ jsShow i.emocao_predominante ++
    "\nLink: " ++ jsShow i.link_publico ++ "\n---"

/-- Body of the part_007 CallToolRequestSchema handler (src/unnamed/part_007
lines 68-124): buscar_arsenal builds a select limited to 5; the or-filter is
added only when busca is truthy, the categoria eq-filter only when categoria
is truthy; the query is then awaited unconditionally. An empty result gives
a sentinel message, not an error. -/
def callToolP7Core (name : String) (args : P7Args) (db : P7Oracle) :
    Except String String × List NetCall :=
  if name = "buscar_arsenal" then
    let filtro : Option String :=
      if jsTruthy args.busca then some (p7Filtro (args.busca.getD "")) else none
    let catFilter : Option String :=
      if jsTruthy args.categoria then args.categoria else none
    let call := NetCall.arsenalSelect filtro catFilter 5
    match db.arsenalRes with
    | .error m => (.error m, [call])
    | .ok data =>
      if data.isEmpty then
        (.ok "Não encontrei imagens no arsenal com esses termos.", [call])
      else
        (.ok (String.intercalate "\n" (data.map formatP7Item)), [call])
  else if name = "ler_tabela" then
    let call := NetCall.selectRows args.tabela "*" (jsOrNat args.limite 5)
    match db.selectRes with
    | .error m => (.error m, [call])
    | .ok rows => (.ok (jsonStringify rows), [call])
  else (.error "Ferramenta desconhecida", [])

/-- Full part_007 call handler with its catch block (lines 125-128). -/
def callToolP7 (name : String) (args : P7Args) (db : P7Oracle) :
    ToolResult × List NetCall :=
  match callToolP7Core name args db with
  | (.ok text, calls) => (⟨[⟨text⟩], false⟩, calls)
  | (.error m, calls) => (⟨[⟨"Erro: " ++ m⟩], true⟩, calls)

/-! ### Lead store, upsert and the lead handlers (claims C6, C7, C10) -/

/-- One row of the leads table; telefone is the natural key. Columns not
touched by atualizar_lead (nome, interesse) are included to state the frame
property. -/
structure LeadRow where
  telefone : String
  nome : Option String
  interesse : Option String
  funnel_stage : Option String
  perfil_completo_ia : Option String
  last_interaction : String
deriving DecidableEq

/-- The partial update object built by POST /atualizar_lead: the natural
key, the server-set timestamp, and each optional field only when present
(a `none` field means the column is absent from the payload). -/
structure UpdatePayload where
  telefone : String
  last_interaction : String
  funnel_stage : Option String
  perfil_completo_ia : Option String
deriving DecidableEq

/-- src/unnamed/part_001 lines 301-309: updateData starts with telefone and
a fresh last_interaction; funnel_stage and perfil_completo_ia are added only
when their supplied value is truthy. -/
def mkUpdateData (telefone : String) (funnel_stage perfil_completo_ia : Option String)
    (now : String) : UpdatePayload :=
  { telefone := telefone
    last_interaction := now
    funnel_stage := if jsTruthy funnel_stage then funnel_stage else none
    perfil_completo_ia := if jsTruthy perfil_completo_ia then perfil_completo_ia else none }

/-- Postgres upsert conflict-update semantics on one row: columns present in
the payload overwrite the stored value, all other columns are unchanged. -/
def mergeRow (r : LeadRow) (p : UpdatePayload) : LeadRow :=
  { r with
    last_interaction := p.last_interaction
    funnel_stage := match p.funnel_stage with
      | some v => some v
      | none => r.funnel_stage
    perfil_completo_ia := match p.perfil_completo_ia with
      | some v => some v
      | none => r.perfil_completo_ia }

/-- Postgres upsert insert semantics: a fresh row from the payload, with
columns absent from the payload set to null. -/
def newRow (p : UpdatePayload) : LeadRow :=
  { telefone := p.telefone
    nome := none
    interesse := none
    funnel_stage := p.funnel_stage
    perfil_completo_ia := p.perfil_completo_ia
    last_interaction := p.last_interaction }

/-- Point lookup by natural key, as issued by .eq(telefone, t).single(). -/
def findLead : List LeadRow → String → Option LeadRow
  | [], _ => none
  | r :: rest, t => if r.telefone = t then some r else findLead rest t

/-- The upsert with onConflict telefone: update the (unique) conflicting row
in place, or append a fresh row when none exists. -/
def applyUpsert : List LeadRow → UpdatePayload → List LeadRow
  | [], p => [newRow p]
  | r :: rest, p =>
    if r.telefone = p.telefone then mergeRow r p :: rest
    else r :: applyUpsert rest p

/-- Number of stored rows carrying a given telefone. -/
def leadCount : List LeadRow → String → Nat
  | [], _ => 0
  | r :: rest, t => (if r.telefone = t then 1 else 0) + leadCount rest t

/-- The row the upsert leaves in the store for the payload key: the merge
over the previous row, or a fresh row when the key was absent. -/
def leadStateAfter (store : List LeadRow) (p : UpdatePayload) : LeadRow :=
  match findLead store p.telefone with
  | some r => mergeRow r p
  | none => newRow p

/-- Response of POST /atualizar_lead. -/
inductive LeadUpdateResp where
  | atualizado (lead : LeadRow)
  | serverError (mensagem : String)
deriving DecidableEq

/-- src/unnamed/part_001 POST /atualizar_lead (lines 299-330): build the
partial update object, upsert on telefone, return the resulting row
(.select().single()) together with the new store. -/
def atualizarLeadP1 (telefone : String) (funnel_stage perfil_completo_ia : Option String)
    (now : String) (store : List LeadRow) : LeadUpdateResp × List LeadRow :=
  let p := mkUpdateData telefone funnel_stage perfil_completo_ia now
  let store2 := applyUpsert store p
  match findLead store2 telefone with
  | some r => (.atualizado r, store2)
  | none => (.serverError "PGRST116", store2)

/-- A PostgREST error object with its code and message. -/
structure DbErr where
  code : String
  message : String
deriving DecidableEq

/-- The (data, error) pair produced by .eq(telefone, t).single(): the row
when present, otherwise a null data with the PGRST116 not-found error. -/
def selectLeadSingle (db : List LeadRow) (t : String) :
    Option LeadRow × Option DbErr :=
  match findLead db t with
  | some r => (some r, none)
  | none => (none, some ⟨"PGRST116", "JSON object requested, multiple (or no) rows returned"⟩)

/-- Response of POST /buscar_lead. -/
inductive LeadResp where
  | ok (encontrado : Bool) (lead : Option LeadRow)
  | serverError (mensagem : String)
deriving DecidableEq

/-- src/unnamed/part_001 POST /buscar_lead (lines 269-294): rethrow any
error whose code is not PGRST116 (caught as a 500); otherwise answer
`{encontrado: !!data, lead: data || null}`. -/
def buscarLeadP1 (q : Option LeadRow × Option DbErr) : LeadResp :=
  match q.2 with
  | some e => if e.code ≠ "PGRST116" then .serverError e.message else .ok q.1.isSome q.1
  | none => .ok q.1.isSome q.1

/-! ### SSE POST routes (claim C5) -/

/-- The module-level transport handle; its only observable datum here is a
session number. -/
structure SSETransport where
  sessionId : Nat
deriving DecidableEq

/-- Observable outcome of a POST to the message route: either the message is
delegated to the open transport, or an HTTP status is returned. -/
inductive PostOutcome where
  | handledByTransport
  | status (code : Nat) (body : String)
deriving DecidableEq

/-- src/server.js lines 80-82 (variant 1 POST /messages):
`if (transport) await transport.handlePostMessage(req, res)` with no else
branch; with no transport the request receives no response at all,
modelled as `none`. -/
def postMessagesV1 (transport : Option SSETransport) : Option PostOutcome :=
  match transport with
  | some _ => some .handledByTransport
  | none => none

/-- src/unnamed/part_005 lines 75-81 (POST /messages): no open transport is
rejected with status 400. -/
def postMessagesP5 (transport : Option SSETransport) : Option PostOutcome :=
  match transport with
  | some _ => some .handledByTransport
  | none => some (.status 400 "❌ Nenhuma conexão SSE ativa")

/-- src/unnamed/part_003 lines 77-87 (POST /message): no open transport is
rejected with status 500. -/
def postMessageP3 (transport : Option SSETransport) : Option PostOutcome :=
  match transport with
  | some _ => some .handledByTransport
  | none => some (.status 500 "No active transport")

/-! ### Helper lemmas about the lead store -/

theorem mergeRow_telefone (r : LeadRow) (p : UpdatePayload) :
    (mergeRow r p).telefone = r.telefone := rfl

theorem newRow_telefone (p : UpdatePayload) :
    (newRow p).telefone = p.telefone := rfl

/-- After an upsert, the lookup on the payload key finds exactly the merged
(or freshly inserted) row. -/
theorem findLead_applyUpsert (store : List LeadRow) (p : UpdatePayload) :
    findLead (applyUpsert store p) p.telefone = some (leadStateAfter store p) := by
  induction store with
  | nil =>
    simp [applyUpsert, findLead, leadStateAfter, newRow_telefone]
  | cons r rest ih =>
    by_cases h : r.telefone = p.telefone
    · simp [applyUpsert, h, findLead, leadStateAfter, mergeRow_telefone]
    · simp only [applyUpsert, if_neg h, findLead, leadStateAfter]
      exact ih

/-- Upserting into a store holding at most one row for the payload key
leaves exactly one row for that key. -/
theorem leadCount_applyUpsert (store : List LeadRow) (p : UpdatePayload)
    (hu : leadCount store p.telefone ≤ 1) :
    leadCount (applyUpsert store p) p.telefone = 1 := by
  induction store with
  | nil => simp [applyUpsert, leadCount, newRow_telefone]
  | cons r rest ih =>
    by_cases h : r.telefone = p.telefone
    · have h0 : leadCount rest p.telefone = 0 := by
        simp only [leadCount, if_pos h] at hu
        omega
      simp [applyUpsert, h, leadCount, mergeRow_telefone, h0]
    · have hrest : leadCount rest p.telefone ≤ 1 := by
        simp only [leadCount, if_neg h] at hu
        omega
      simp [applyUpsert, h, leadCount, ih hrest]

/-- The store returned by atualizar_lead is exactly the upsert of the
payload into the previous store. -/
theorem atualizarLeadP1_store (telefone : String) (fs pc : Option String)
    (now : String) (store : List LeadRow) :
    (atualizarLeadP1 telefone fs pc now store).2 =
      applyUpsert store (mkUpdateData telefone fs pc now) := by
  cases h : findLead (applyUpsert store (mkUpdateData telefone fs pc now)) telefone <;>
    simp [atualizarLeadP1, h]

/-- The row atualizar_lead returns is the post-upsert state of the key. -/
theorem atualizarLeadP1_resp (telefone : String) (fs pc : Option String)
    (now : String) (store : List LeadRow) :
    (atualizarLeadP1 telefone fs pc now store).1 =
      .atualizado (leadStateAfter store (mkUpdateData telefone fs pc now)) := by
  have hf : findLead (applyUpsert store (mkUpdateData telefone fs pc now)) telefone =
      some (leadStateAfter store (mkUpdateData telefone fs pc now)) :=
    findLead_applyUpsert store (mkUpdateData telefone fs pc now)
  unfold atualizarLeadP1
  simp only [hf]

/-! ### Claim theorems -/

/-- Concrete arguments object used by the witnesses. -/
def argsW : P2Args := ⟨"leads", none, none, none, none, none, "bucket", "caminho"⟩

/-- Concrete backend oracle used by the witnesses (every call succeeds with
an empty row set). -/
def dbW : P2Oracle := ⟨.ok [], .ok [], .ok [], .ok [], .ok "url"⟩

/-- C1 counterexample: in the variant-1 call handler (src/server.js lines
54-61) an unknown tool name does not produce an isError envelope; the
handler throws the not-found error, so the claim fails as stated on this
cited handler. -/
theorem callToolV1_unknown_throws :
    callToolV1 "tool_x" = Except.error "Ferramenta não encontrada" := rfl

/-- Concrete part_007 arguments object used by the witnesses. -/
def args7W : P7Args := ⟨none, none, "leads", none⟩

/-- Concrete part_007 backend oracle used by the witnesses. -/
def db7W : P7Oracle := ⟨.ok [], .ok []⟩

/-- C1 (amended): for a tool name outside every registry of the sources, the
call handlers that wrap dispatch in try/catch (part_002, part_006, part_007)
return a well-formed envelope with isError true and a tool-not-found message
and issue no backend call; the handlers without a handler-level catch
(src/server.js variant 1, part_005) instead throw the not-found error rather
than returning an isError envelope, leaving conversion to the SDK. -/
theorem callTool_unknown_tool_all_variants (name : String) (args : P2Args)
    (db : P2Oracle) (args7 : P7Args) (db7 : P7Oracle)
    (h : name ∉ (["buscar_arsenal", "ler_tabela", "modificar_dados",
      "gerar_link_download"] : List String)) :
    ((callToolP2 name args db).1.isError = true ∧
      (callToolP2 name args db).1.content =
        [⟨"Erro: " ++ ("Ferramenta não encontrada: " ++ name)⟩] ∧
      (callToolP2 name args db).2 = []) ∧
    ((callToolP6 name args db).1.isError = true ∧
      (callToolP6 name args db).1.content = [⟨"Erro: Ferramenta desconhecida"⟩] ∧
      (callToolP6 name args db).2 = []) ∧
    ((callToolP7 name args7 db7).1.isError = true ∧
      (callToolP7 name args7 db7).1.content = [⟨"Erro: Ferramenta desconhecida"⟩] ∧
      (callToolP7 name args7 db7).2 = []) ∧
    callToolV1 name = Except.error "Ferramenta não encontrada" ∧
    callToolP5 name = Except.error "Ferramenta não encontrada" := by
  have hb : name ≠ "buscar_arsenal" := by intro hh; exact h (by simp [hh])
  have h1 : name ≠ "ler_tabela" := by intro hh; exact h (by simp [hh])
  have h2 : name ≠ "modificar_dados" := by intro hh; exact h (by simp [hh])
  have h3 : name ≠ "gerar_link_download" := by intro hh; exact h (by simp [hh])
  have hcore2 : callToolP2Core name args db =
      (.error ("Ferramenta não encontrada: " ++ name), []) := by
    unfold callToolP2Core
    rw [if_neg h1, if_neg h2, if_neg h3]
  have hcore6 : callToolP6Core name args db = (.error "Ferramenta desconhecida", []) := by
    unfold callToolP6Core
    rw [if_neg h1, if_neg h2, if_neg h3]
  have hcore7 : callToolP7Core name args7 db7 = (.error "Ferramenta desconhecida", []) := by
    unfold callToolP7Core
    rw [if_neg hb, if_neg h1]
  refine ⟨?_, ?_, ?_, ?_, ?_⟩
  · simp [callToolP2, hcore2]
  · simp [callToolP6, hcore6]
  · simp [callToolP7, hcore7]
  · unfold callToolV1
    rw [if_neg hb]
  · unfold callToolP5
    rw [if_neg hb]

theorem callTool_unknown_tool_all_variants_witness :
    ("tool_x" ∉ (["buscar_arsenal", "ler_tabela", "modificar_dados",
      "gerar_link_download"] : List String)) ∧
    (((callToolP2 "tool_x" argsW dbW).1.isError = true ∧
        (callToolP2 "tool_x" argsW dbW).1.content =
          [⟨"Erro: " ++ ("Ferramenta não encontrada: " ++ "tool_x")⟩] ∧
        (callToolP2 "tool_x" argsW dbW).2 = []) ∧
      ((callToolP6 "tool_x" argsW dbW).1.isError = true ∧
        (callToolP6 "tool_x" argsW dbW).1.content = [⟨"Erro: Ferramenta desconhecida"⟩] ∧
        (callToolP6 "tool_x" argsW dbW).2 = []) ∧
      ((callToolP7 "tool_x" args7W db7W).1.isError = true ∧
        (callToolP7 "tool_x" args7W db7W).1.content = [⟨"Erro: Ferramenta desconhecida"⟩] ∧
        (callToolP7 "tool_x" args7W db7W).2 = []) ∧
      callToolV1 "tool_x" = Except.error "Ferramenta não encontrada" ∧
      callToolP5 "tool_x" = Except.error "Ferramenta não encontrada") :=
  ⟨by decide,
    callTool_unknown_tool_all_variants "tool_x" argsW dbW args7W db7W (by decide)⟩

/-- C2 counterexample: in the variant-2 startup validation (src/server.js
lines 102-104) a missing database URL and service key only logs the
diagnostic and proceeds; the process is not terminated, so the claim fails
as stated on this cited validation. -/
theorem startupV2_missing_config_no_exit :
    startupV2 none none =
      .proceed ["ERRO: Variáveis de ambiente SUPABASE_URL ou SUPABASE_SERVICE_KEY não definidas."] ∧
    (startupV2 none none).isExit = false :=
  ⟨rfl, rfl⟩

/-- C2 (amended): the startup validations of src/server.js lines 16-19 and
part_003 lines 15-18 terminate the process (exit code 1, diagnostic logged)
exactly when the database URL or service key is absent or empty, and in no
other case; the variant at src/server.js lines 102-104 only logs and
continues. -/
theorem startup_exit_iff_missing_config (url key : Option String) :
    (startupV1 url key).isExit = (jsFalsy url || jsFalsy key) ∧
    (startupP3 url key).isExit = (jsFalsy url || jsFalsy key) := by
  cases hb : jsFalsy url || jsFalsy key <;>
    simp [startupV1, startupP3, hb, StartupOutcome.isExit]

/-- C3 counterexample: the part_007 buscar_arsenal handler does not reject
an empty busca; it issues the arsenal select (with no text filter) and
returns a non-error result, so the claim fails as stated on this cited
handler. -/
theorem callToolP7_empty_query_queries_db :
    callToolP7 "buscar_arsenal" ⟨some "", none, "arsenal", none⟩ ⟨.ok [], .ok []⟩ =
      (⟨[⟨"Não encontrei imagens no arsenal com esses termos."⟩], false⟩,
        [NetCall.arsenalSelect none none 5]) := rfl

/-- C3 (amended): in the HTTP variants part_001 and part_004 a missing or
empty query is rejected with a 400 invalid-argument response before any
network call (the call trace is empty); the part_007 handler does not
reject an empty busca and issues the select anyway. -/
theorem buscarArsenal_empty_query_rejected (vp q : Option String) (lim : Option Nat)
    (predictRes : Except String (List Int)) (rpcRes selRes : Except String (List ArsenalRow))
    (hq : jsFalsy q = true) :
    buscarArsenalP1 vp q lim predictRes rpcRes =
      (.badRequest "Query inválida. Envie: \x7b \"query\": \"termo de busca\" \x7d", []) ∧
    buscarArsenalP4 q lim selRes = (.badRequest "Query obrigatória", []) := by
  constructor
  · unfold buscarArsenalP1
    rw [if_pos hq]
  · unfold buscarArsenalP4
    rw [if_pos hq]

theorem buscarArsenal_empty_query_rejected_witness :
    jsFalsy none = true ∧
    (buscarArsenalP1 (some "proj") none none (.ok []) (.ok []) =
      (.badRequest "Query inválida. Envie: \x7b \"query\": \"termo de busca\" \x7d", []) ∧
      buscarArsenalP4 none none (.ok []) = (.badRequest "Query obrigatória", [])) :=
  ⟨rfl, buscarArsenal_empty_query_rejected (some "proj") none none (.ok []) (.ok []) (.ok []) rfl⟩

/-- C4 counterexample: in the part_001 handler, a vector search returning no
rows produces the sem_resultados response immediately after the embedding
and RPC calls; no keyword-fallback query appears in the call trace, so the
claimed fallback does not exist. -/
theorem buscarArsenalP1_no_fallback_on_empty :
    buscarArsenalP1 (some "proj") (some "relogio") none (.ok [1, 2]) (.ok []) =
      (.semResultados "relogio",
        [NetCall.vertexPredict "relogio", NetCall.rpcMatch [1, 2] matchThreshold 5]) := rfl

/-- C4 (amended): in the part_001 handler, whenever the vector-similarity
RPC returns no rows the response is the non-error sem_resultados payload
with an empty result list, produced with exactly the embedding call and the
RPC call in the trace and no fallback substring query; an RPC failure is
reported as a 500 error instead. -/
theorem buscarArsenalP1_empty_rpc_sem_resultados (vp q : Option String) (lim : Option Nat)
    (emb : List Int) (hq : jsFalsy q = false) (hvp : jsFalsy vp = false) :
    buscarArsenalP1 vp q lim (.ok emb) (.ok []) =
      (.semResultados (q.getD ""),
        [NetCall.vertexPredict (q.getD ""), NetCall.rpcMatch emb matchThreshold (lim.getD 5)]) := by
  unfold buscarArsenalP1 gerarEmbedding
  simp [hq, hvp]

theorem buscarArsenalP1_empty_rpc_sem_resultados_witness :
    jsFalsy (some "tenis") = false ∧ jsFalsy (some "proj") = false ∧
    buscarArsenalP1 (some "proj") (some "tenis") none (.ok [7]) (.ok []) =
      (.semResultados ((some "tenis").getD ""),
        [NetCall.vertexPredict ((some "tenis").getD ""),
          NetCall.rpcMatch [7] matchThreshold ((none : Option Nat).getD 5)]) :=
  ⟨by decide, by decide,
    buscarArsenalP1_empty_rpc_sem_resultados (some "proj") (some "tenis") none [7]
      (by decide) (by decide)⟩

/-- C5 counterexample: in variant 1 (src/server.js lines 80-82) a POST to
/messages with no open transport produces no response at all; the request is
silently dropped, so the claim fails as stated on this cited route. -/
theorem postMessagesV1_no_transport_unanswered :
    postMessagesV1 none = none := rfl

/-- C5 (amended): the part_005 and part_003 message routes always answer:
with no open transport they reject the POST with a client-visible 400 and
500 respectively (and no route terminates the process); the variant-1 route
instead drops such a POST without any response. -/
theorem postMessages_no_transport_rejected (t : Option SSETransport) :
    (postMessagesP5 t).isSome = true ∧ (postMessageP3 t).isSome = true ∧
    postMessagesP5 none = some (.status 400 "❌ Nenhuma conexão SSE ativa") ∧
    postMessageP3 none = some (.status 500 "No active transport") := by
  refine ⟨?_, ?_, rfl, rfl⟩ <;> cases t <;> rfl

/-- C6: two successive atualizar_lead calls with the same phone number leave
exactly one stored record for that number, whose fields are the second
payload merged over the state left by the first (itself merged over the
initial store), and the handler returns that resulting row. -/
theorem lead_upsert_twice_single_merged (store : List LeadRow) (t : String)
    (fs1 pc1 fs2 pc2 : Option String) (now1 now2 : String)
    (hu : leadCount store t ≤ 1) :
    leadCount ((atualizarLeadP1 t fs2 pc2 now2 ((atualizarLeadP1 t fs1 pc1 now1 store).2)).2) t = 1 ∧
    findLead ((atualizarLeadP1 t fs2 pc2 now2 ((atualizarLeadP1 t fs1 pc1 now1 store).2)).2) t =
      some (mergeRow (leadStateAfter store (mkUpdateData t fs1 pc1 now1))
        (mkUpdateData t fs2 pc2 now2)) ∧
    (atualizarLeadP1 t fs2 pc2 now2 ((atualizarLeadP1 t fs1 pc1 now1 store).2)).1 =
      .atualizado (mergeRow (leadStateAfter store (mkUpdateData t fs1 pc1 now1))
        (mkUpdateData t fs2 pc2 now2)) := by
  have hs1 : (atualizarLeadP1 t fs1 pc1 now1 store).2 =
      applyUpsert store (mkUpdateData t fs1 pc1 now1) :=
    atualizarLeadP1_store t fs1 pc1 now1 store
  have hs2 : (atualizarLeadP1 t fs2 pc2 now2 (applyUpsert store (mkUpdateData t fs1 pc1 now1))).2 =
      applyUpsert (applyUpsert store (mkUpdateData t fs1 pc1 now1)) (mkUpdateData t fs2 pc2 now2) :=
    atualizarLeadP1_store t fs2 pc2 now2 _
  have hc1 : leadCount (applyUpsert store (mkUpdateData t fs1 pc1 now1)) t = 1 :=
    leadCount_applyUpsert store (mkUpdateData t fs1 pc1 now1) hu
  have hfind1 : findLead (applyUpsert store (mkUpdateData t fs1 pc1 now1))
      (mkUpdateData t fs2 pc2 now2).telefone =
      some (leadStateAfter store (mkUpdateData t fs1 pc1 now1)) :=
    findLead_applyUpsert store (mkUpdateData t fs1 pc1 now1)
  have hstate : leadStateAfter (applyUpsert store (mkUpdateData t fs1 pc1 now1))
      (mkUpdateData t fs2 pc2 now2) =
      mergeRow (leadStateAfter store (mkUpdateData t fs1 pc1 now1)) (mkUpdateData t fs2 pc2 now2) := by
    unfold leadStateAfter
    rw [hfind1]
    rfl
  refine ⟨?_, ?_, ?_⟩
  · rw [hs1, hs2]
    exact leadCount_applyUpsert _ (mkUpdateData t fs2 pc2 now2) (le_of_eq hc1)
  · rw [hs1, hs2, ← hstate]
    exact findLead_applyUpsert _ (mkUpdateData t fs2 pc2 now2)
  · rw [hs1, ← hstate]
    exact atualizarLeadP1_resp t fs2 pc2 now2 _

theorem lead_upsert_twice_single_merged_witness :
    leadCount ([] : List LeadRow) "5511" ≤ 1 ∧
    (leadCount ((atualizarLeadP1 "5511" none (some "perfil") "t2"
        ((atualizarLeadP1 "5511" (some "novo") none "t1" []).2)).2) "5511" = 1 ∧
      findLead ((atualizarLeadP1 "5511" none (some "perfil") "t2"
          ((atualizarLeadP1 "5511" (some "novo") none "t1" []).2)).2) "5511" =
        some (mergeRow (leadStateAfter [] (mkUpdateData "5511" (some "novo") none "t1"))
          (mkUpdateData "5511" none (some "perfil") "t2")) ∧
      (atualizarLeadP1 "5511" none (some "perfil") "t2"
          ((atualizarLeadP1 "5511" (some "novo") none "t1" []).2)).1 =
        .atualizado (mergeRow (leadStateAfter [] (mkUpdateData "5511" (some "novo") none "t1"))
          (mkUpdateData "5511" none (some "perfil") "t2"))) :=
  ⟨by decide,
    lead_upsert_twice_single_merged [] "5511" (some "novo") none none (some "perfil")
      "t1" "t2" (by decide)⟩

/-- C7: a buscar_lead lookup for a phone number absent from the store
answers the non-error payload with encontrado false and a null lead, the
not-found case being recognised through the PGRST116 error code; any backend
error carrying a different code is reported as a 500 error. -/
theorem buscarLead_not_found_vs_failure (db : List LeadRow) (t : String) (e : DbErr)
    (d : Option LeadRow) (habs : findLead db t = none) (hcode : e.code ≠ "PGRST116") :
    buscarLeadP1 (selectLeadSingle db t) = .ok false none ∧
    buscarLeadP1 (d, some e) = .serverError e.message := by
  constructor
  · unfold selectLeadSingle
    rw [habs]
    rfl
  · have hb : buscarLeadP1 (d, some e) =
        if e.code ≠ "PGRST116" then .serverError e.message else .ok d.isSome d := rfl
    rw [hb, if_pos hcode]

theorem buscarLead_not_found_vs_failure_witness :
    (findLead ([] : List LeadRow) "5511" = none ∧ ("PGRST301" : String) ≠ "PGRST116") ∧
    (buscarLeadP1 (selectLeadSingle [] "5511") = .ok false none ∧
      buscarLeadP1 ((none : Option LeadRow), some ⟨"PGRST301", "connection refused"⟩) =
        .serverError (DbErr.message ⟨"PGRST301", "connection refused"⟩)) :=
  ⟨⟨rfl, by decide⟩,
    buscarLead_not_found_vs_failure [] "5511" ⟨"PGRST301", "connection refused"⟩ none
      rfl (by decide)⟩

/-- C8 counterexample: the part_006 variant-2 modificar_dados handler runs
an update with no id_alvo supplied: it issues the update query with an
undefined id filter and, the backend reporting no error, returns a non-error
envelope — so neither conjunct of the claim (fails with an error; performs
no write) holds on this cited handler. -/
theorem callToolP6_update_without_id_writes :
    callToolP6 "modificar_dados"
        ⟨"leads", none, none, some "update", some "dados_json", none, "bucket", "caminho"⟩ dbW =
      (⟨[⟨"[]"⟩], false⟩, [NetCall.updateRows "leads" (some "dados_json") none]) := rfl

/-- C8 (amended): the part_002 modificar_dados handler rejects update and
delete with a missing or empty id_alvo, returning an isError envelope
before any write is issued (empty call trace); the part_006 variant-2
handler instead performs the write with the undefined id filter. -/
theorem callToolP2_update_delete_require_id_alvo (args : P2Args) (db : P2Oracle)
    (hacao : args.acao = some "update" ∨ args.acao = some "delete")
    (hid : jsFalsy args.id_alvo = true) :
    (callToolP2 "modificar_dados" args db).1.isError = true ∧
    (callToolP2 "modificar_dados" args db).2 = [] := by
  rcases hacao with hup | hdel
  · have hcore : callToolP2Core "modificar_dados" args db =
        (.error "Precisa de id_alvo para atualizar", []) := by
      unfold callToolP2Core
      rw [if_neg (by decide), if_pos rfl, if_neg (by rw [hup]; decide), if_pos hup, if_pos hid]
    simp [callToolP2, hcore]
  · have hcore : callToolP2Core "modificar_dados" args db =
        (.error "Precisa de id_alvo para apagar", []) := by
      unfold callToolP2Core
      rw [if_neg (by decide), if_pos rfl, if_neg (by rw [hdel]; decide),
        if_neg (by rw [hdel]; decide), if_pos hdel, if_pos hid]
    simp [callToolP2, hcore]

theorem callToolP2_update_delete_require_id_alvo_witness :
    ((P2Args.acao ⟨"leads", none, none, some "update", some "dados_json", none, "bucket", "caminho"⟩ = some "update" ∨
        P2Args.acao ⟨"leads", none, none, some "update", some "dados_json", none, "bucket", "caminho"⟩ = some "delete") ∧
      jsFalsy (P2Args.id_alvo ⟨"leads", none, none, some "update", some "dados_json", none, "bucket", "caminho"⟩) = true) ∧
    ((callToolP2 "modificar_dados"
        ⟨"leads", none, none, some "update", some "dados_json", none, "bucket", "caminho"⟩ dbW).1.isError = true ∧
      (callToolP2 "modificar_dados"
        ⟨"leads", none, none, some "update", some "dados_json", none, "bucket", "caminho"⟩ dbW).2 = []) :=
  ⟨⟨Or.inl rfl, rfl⟩,
    callToolP2_update_delete_require_id_alvo
      ⟨"leads", none, none, some "update", some "dados_json", none, "bucket", "caminho"⟩ dbW
      (Or.inl rfl) rfl⟩

/-- C9: in the part_002 modificar_dados handler an acao outside insert,
update, delete leaves result unassigned; the access result.error throws
inside the try block and the catch converts it into an isError envelope,
with no database write issued (empty call trace) and no unhandled
exception. -/
theorem callToolP2_unknown_acao_isError_no_write (args : P2Args) (db : P2Oracle)
    (h1 : args.acao ≠ some "insert") (h2 : args.acao ≠ some "update")
    (h3 : args.acao ≠ some "delete") :
    (callToolP2 "modificar_dados" args db).1.isError = true ∧
    (callToolP2 "modificar_dados" args db).2 = [] := by
  have hcore : callToolP2Core "modificar_dados" args db =
      (.error "Cannot read properties of undefined (reading error)", []) := by
    unfold callToolP2Core
    rw [if_neg (by decide), if_pos rfl, if_neg h1, if_neg h2, if_neg h3]
  simp [callToolP2, hcore]

theorem callToolP2_unknown_acao_isError_no_write_witness :
    ((some "upsert" : Option String) ≠ some "insert" ∧
      (some "upsert" : Option String) ≠ some "update" ∧
      (some "upsert" : Option String) ≠ some "delete") ∧
    ((callToolP2 "modificar_dados"
        ⟨"leads", none, none, some "upsert", some "dados_json", none, "bucket", "caminho"⟩ dbW).1.isError = true ∧
      (callToolP2 "modificar_dados"
        ⟨"leads", none, none, some "upsert", some "dados_json", none, "bucket", "caminho"⟩ dbW).2 = []) :=
  ⟨⟨by decide, by decide, by decide⟩,
    callToolP2_unknown_acao_isError_no_write
      ⟨"leads", none, none, some "upsert", some "dados_json", none, "bucket", "caminho"⟩ dbW
      (by decide) (by decide) (by decide)⟩

/-- C10: the atualizar_lead payload contains exactly the phone number, the
fresh timestamp, and each optional field only when its supplied value is
truthy; upserting it over an existing record updates only those supplied
fields and the timestamp, leaving a falsy optional field and every other
column (nome, interesse) unchanged. -/
theorem atualizarLead_payload_exact_and_frame (store : List LeadRow) (r0 : LeadRow)
    (fs pc : Option String) (now : String)
    (hfind : findLead store r0.telefone = some r0) :
    (mkUpdateData r0.telefone fs pc now).telefone = r0.telefone ∧
    (mkUpdateData r0.telefone fs pc now).last_interaction = now ∧
    (mkUpdateData r0.telefone fs pc now).funnel_stage = (if jsTruthy fs then fs else none) ∧
    (mkUpdateData r0.telefone fs pc now).perfil_completo_ia = (if jsTruthy pc then pc else none) ∧
    findLead (applyUpsert store (mkUpdateData r0.telefone fs pc now)) r0.telefone =
      some { r0 with
        last_interaction := now
        funnel_stage := if jsTruthy fs then fs else r0.funnel_stage
        perfil_completo_ia := if jsTruthy pc then pc else r0.perfil_completo_ia } := by
  refine ⟨rfl, rfl, rfl, rfl, ?_⟩
  have hf : findLead (applyUpsert store (mkUpdateData r0.telefone fs pc now)) r0.telefone =
      some (leadStateAfter store (mkUpdateData r0.telefone fs pc now)) :=
    findLead_applyUpsert store (mkUpdateData r0.telefone fs pc now)
  have hfind' : findLead store (mkUpdateData r0.telefone fs pc now).telefone = some r0 := hfind
  rw [hf]
  unfold leadStateAfter
  rw [hfind']
  rcases fs with _ | s <;> rcases pc with _ | u <;>
    simp [mergeRow, mkUpdateData, jsTruthy, jsFalsy] <;>
    split_ifs <;> simp_all

theorem atualizarLead_payload_exact_and_frame_witness :
    findLead [(⟨"5511", some "Ana", none, some "etapa1", none, "t0"⟩ : LeadRow)]
        (LeadRow.telefone ⟨"5511", some "Ana", none, some "etapa1", none, "t0"⟩) =
      some ⟨"5511", some "Ana", none, some "etapa1", none, "t0"⟩ ∧
    ((mkUpdateData (LeadRow.telefone ⟨"5511", some "Ana", none, some "etapa1", none, "t0"⟩)
        (some "") (some "novo_perfil") "t1").telefone =
      LeadRow.telefone ⟨"5511", some "Ana", none, some "etapa1", none, "t0"⟩ ∧
     (mkUpdateData (LeadRow.telefone ⟨"5511", some "Ana", none, some "etapa1", none, "t0"⟩)
        (some "") (some "novo_perfil") "t1").last_interaction = "t1" ∧
     (mkUpdateData (LeadRow.telefone ⟨"5511", some "Ana", none, some "etapa1", none, "t0"⟩)
        (some "") (some "novo_perfil") "t1").funnel_stage =
      (if jsTruthy (some "") then some "" else none) ∧
     (mkUpdateData (LeadRow.telefone ⟨"5511", some "Ana", none, some "etapa1", none, "t0"⟩)
        (some "") (some "novo_perfil") "t1").perfil_completo_ia =
      (if jsTruthy (some "novo_perfil") then some "novo_perfil" else none) ∧
     findLead (applyUpsert [(⟨"5511", some "Ana", none, some "etapa1", none, "t0"⟩ : LeadRow)]
        (mkUpdateData (LeadRow.telefone ⟨"5511", some "Ana", none, some "etapa1", none, "t0"⟩)
          (some "") (some "novo_perfil") "t1"))
        (LeadRow.telefone ⟨"5511", some "Ana", none, some "etapa1", none, "t0"⟩) =
      some { (⟨"5511", some "Ana", none, some "etapa1", none, "t0"⟩ : LeadRow) with
        last_interaction := "t1"
        funnel_stage := if jsTruthy (some "") then some "" else
          LeadRow.funnel_stage ⟨"5511", some "Ana", none, some "etapa1", none, "t0"⟩
        perfil_completo_ia := if jsTruthy (some "novo_perfil") then some "novo_perfil" else
          LeadRow.perfil_completo_ia ⟨"5511", some "Ana", none, some "etapa1", none, "t0"⟩ }) :=
  ⟨by decide,
    atualizarLead_payload_exact_and_frame
      [⟨"5511", some "Ana", none, some "etapa1", none, "t0"⟩]
      ⟨"5511", some "Ana", none, some "etapa1", none, "t0"⟩
      (some "") (some "novo_perfil") "t1" (by decide)⟩

end MCPSupabase
